import Mathlib

/-
  Shallow embedding of simple_o365_send_mail.py
  (classes MsGraphRateLimitExceededError, SimpleFileAttachment, SimpleSendMail).

  Conventions:
  - Python exceptions become the inductive PyExc; fallible code returns Except PyExc.
  - time.time() is modelled as an explicit integer argument (the source truncates
    with int(), so integer arithmetic is exact).
  - HTTP transport is an oracle argument: a function from the request data to the
    reply the server gives.
-/

/-- Model of the Python exception values the module raises or propagates.
    msGraphRateLimit is MsGraphRateLimitExceededError (message plus retry_after,
    source lines 29-32); httpError is requests.exceptions.HTTPError carrying the
    response status; requestException is any other requests.exceptions.RequestException. -/
inductive PyExc where
  | msGraphRateLimit (message : String) (retryAfter : Int)
  | httpError (status : Nat) (message : String)
  | requestException (message : String)
  | valueError (message : String)
  | runtimeError (message : String)
  | typeError (message : String)
  | fileNotFound (message : String)
  | keyError (message : String)
  | exception (message : String)
  | unboundLocalError (message : String)
deriving DecidableEq

/-- Python truthiness of an optional string (None and the empty string are falsy). -/
def pyTruthy : Option String → Bool
  | none => false
  | some s => !s.isEmpty

/-- Python truthiness of an int (0 is falsy). -/
def pyTruthyInt (n : Int) : Bool := n != 0

/-- str(b).lower() for a Python bool. -/
def pyBoolStr (b : Bool) : String := if b then "true" else "false"

/-- Models str(http_err) for a requests HTTPError built from a response with the
    given status and body text. The exact wording is not load-bearing; what matters
    is that it is the message the source passes along. -/
def httpErrorText (status : Nat) (text : String) : String :=
  toString status ++ " Error: " ++ text

/- ===== Request executor: retry_request decorator (source lines 426-456) ===== -/

/-- The message of the terminal error raised after the retry loop exhausts its
    bound (source lines 449-454). -/
def maxRetriesMessage (reqAttempt : Nat) (maxRetries : Int) : String :=
  "While attempting to retry request to MS Graph API, "
    ++ "the maximum number of retries was met without a successful "
    ++ "request being made. (Retry Counter: " ++ toString reqAttempt ++ " - "
    ++ "Max Retries: " ++ toString maxRetries ++ ")"

/-- Observable outcome of one run of the retry_request wrapper: the value returned
    or exception propagated, the list of time.sleep durations performed, and the
    number of times the wrapped function was invoked. -/
structure RetryTrace (α : Type) where
  result : Except PyExc α
  sleeps : List Int
  calls : Nat

/-- The while loop of retry_request (source lines 429-444). `fuel` is the number
    of loop iterations still allowed, i.e. max_retries - req_attempt; since
    req_attempt starts at 0 and increases by exactly 1 per iteration, the loop
    runs at most (max 0 maxRetries) times, which the caller passes as the fuel.
    Only MsGraphRateLimitExceededError is caught; it causes a sleep of
    error.retry_after seconds and an increment of req_attempt. Every other
    exception propagates out of the wrapper at once. When the loop condition
    fails the terminal error is raised with the default retry_after of 90. -/
def retryGo (maxRetries : Int) (call : Nat → Except PyExc α) :
    Nat → Nat → List Int → RetryTrace α
  | 0, attempt, sleeps =>
      ⟨.error (.msGraphRateLimit (maxRetriesMessage attempt maxRetries) 90),
        sleeps, attempt⟩
  | fuel + 1, attempt, sleeps =>
      match call attempt with
      | .ok v => ⟨.ok v, sleeps, attempt + 1⟩
      | .error (.msGraphRateLimit _ ra) =>
          retryGo maxRetries call fuel (attempt + 1) (sleeps ++ [ra])
      | .error e => ⟨.error e, sleeps, attempt + 1⟩

/-- The retry_request decorator applied to a wrapped operation. `call k` is the
    outcome of the (k+1)-th invocation of the wrapped function (which already
    includes the check_token_validity freshness wrapper, since retry_request is
    the outer decorator). -/
def retry_request (maxRetries : Int) (call : Nat → Except PyExc α) : RetryTrace α :=
  retryGo maxRetries call maxRetries.toNat 0 []

/- ===== Token manager (source lines 347-424) ===== -/

/-- The fields of the OAuth token-endpoint JSON response that the module uses. -/
structure OAuthResponse where
  access_token : String
  token_type : String
  expires_in : Int
deriving DecidableEq

/-- The token record the client stores. -/
structure TokenInfo where
  access_token : String
  token_type : String
  expires_at : Int
deriving DecidableEq

/-- __get_OAuth_token, success path (source lines 380-392): the response data is
    kept and expires_at is set to int(time.time() + expires_in). -/
def acquireToken (now : Int) (resp : OAuthResponse) : TokenInfo :=
  ⟨resp.access_token, resp.token_type, now + resp.expires_in⟩

/-- The staleness test of check_token_validity (source line 415):
    int(time.time() + 5) >= expires_at. -/
def tokenIsExpiringSoon (now : Int) (expires_at : Int) : Bool :=
  now + 5 ≥ expires_at

/-- The check_token_expiration wrapper (source lines 413-422): if the stored token
    is stale a fresh one is acquired (freshTok stands for the result of
    __get_OAuth_token) and the wrapped function then runs with it; otherwise the
    wrapped function runs with the stored token unchanged. -/
def check_token_validity (now : Int) (tok freshTok : TokenInfo)
    (func : TokenInfo → α) : α :=
  if tokenIsExpiringSoon now tok.expires_at then func freshTok else func tok

/- ===== base64 (Python base64.b64encode, used by SimpleFileAttachment) ===== -/

/-- The RFC 4648 base64 alphabet. -/
def base64Alphabet : String :=
  "ABCDEFGHIJKLMNOPQRSTUVWXYZabcdefghijklmnopqrstuvwxyz0123456789+/"

/-- The base64 digit for a 6-bit value. -/
def b64Char (n : Nat) : Char := base64Alphabet.toList.getD n 'A'

/-- base64-encode a byte list (each entry < 256), three bytes to four digits with
    '=' padding, as Python base64.b64encode does. -/
def b64encodeList : List Nat → List Char
  | [] => []
  | [a] => [b64Char (a / 4), b64Char (a % 4 * 16), '=', '=']
  | [a, b] => [b64Char (a / 4), b64Char (a % 4 * 16 + b / 16),
      b64Char (b % 16 * 4), '=']
  | a :: b :: c :: rest =>
      b64Char (a / 4) :: b64Char (a % 4 * 16 + b / 16)
        :: b64Char (b % 16 * 4 + c / 64) :: b64Char (c % 64)
        :: b64encodeList rest

/-- base64.b64encode(...).decode("utf-8") on a byte list. -/
def b64encode (bs : List Nat) : String := (b64encodeList bs).asString

/- ===== SimpleFileAttachment (source lines 46-154) ===== -/

/-- The state of a successfully constructed SimpleFileAttachment. The filepath
    field is only assigned in the filepath branch of __init__, hence Option. -/
structure SimpleFileAttachment where
  ATTACHMENT_FILEPATH : Option String
  ATTACHMENT_FILENAME : String
  CONTENT_TYPE : String
  FILE_BYTES : List Nat
  ENCODED_CONTENT : String
deriving DecidableEq

/-- Filename extraction from a filepath (source lines 86-95): split on "/" when
    the path contains one, otherwise on a backslash, and take the last piece. -/
def extractFilename (filepath : String) : String :=
  let delim : Char := if filepath.contains '/' then '/' else '\\'
  ((filepath.split (fun c => c = delim)).getLast?).getD ""

/-- SimpleFileAttachment.__init__ (source lines 54-135). File reading and MIME
    guessing are external effects, passed in as oracles: guessType p models
    mimetypes.guess_type(p)[0] and readFile p models open(p, "rb").read()
    (none meaning FileNotFoundError). The validation checks appear in source
    order; the final match is unreachable in its catch-all arm because the
    earlier checks guarantee filebytes, filename and content_type are present. -/
def SimpleFileAttachment.init
    (guessType : String → Option String) (readFile : String → Option (List Nat))
    (filepath filename : Option String) (filebytes : Option (List Nat))
    (content_type : Option String) : Except PyExc SimpleFileAttachment :=
  if filepath.isNone ∧ filebytes.isNone then
    .error (.valueError ("SimpleFileAttachment class requires either the "
      ++ "filepath OR filebytes to not be None, but both parameters were None!"))
  else if filepath.isSome ∧ filebytes.isSome then
    .error (.runtimeError ("Both a filepath and filebytes were provided, but "
      ++ "only one can be used. Please decide which to use and remove the "
      ++ "other option."))
  else if filebytes.isSome ∧ filename.isNone then
    .error (.valueError ("The value of filename must not be None when "
      ++ "filebytes are provided, but filename was None."))
  else if filebytes.isSome ∧ content_type.isNone then
    .error (.valueError ("The value of content_type must not be None when "
      ++ "filebytes are provided, but content_type was None."))
  else
    match filepath with
    | some p =>
        let name : String :=
          match filename with
          | none => extractFilename p
          | some f => f
        match content_type with
        | none =>
            match guessType p with
            | none =>
                .error (.typeError ("The content type of provided filepath "
                  ++ p ++ " could not be guessed. Please provide a valid "
                  ++ "content_type when initalizing the SimpleFileAttachment "
                  ++ "class."))
            | some t =>
                match readFile p with
                | none =>
                    .error (.fileNotFound ("SimpleFileAttachment could not "
                      ++ "locate the file at the provided path: " ++ p))
                | some bs => .ok ⟨some p, name, t, bs, b64encode bs⟩
        | some ct =>
            match readFile p with
            | none =>
                .error (.fileNotFound ("SimpleFileAttachment could not "
                  ++ "locate the file at the provided path: " ++ p))
            | some bs => .ok ⟨some p, name, ct, bs, b64encode bs⟩
    | none =>
        match filebytes, filename, content_type with
        | some bs, some f, some ct => .ok ⟨none, f, ct, bs, b64encode bs⟩
        | _, _, _ =>
            .error (.valueError "unreachable: guarded by the checks above")

/-- The serialized attachment dictionary (__iter__ / __dict__,
    source lines 137-149). -/
def SimpleFileAttachment.toDict (a : SimpleFileAttachment) :
    List (String × String) :=
  [ ("@odata.type", "#microsoft.graph.fileAttachment"),
    ("name", a.ATTACHMENT_FILENAME),
    ("contentType", a.CONTENT_TYPE),
    ("contentBytes", a.ENCODED_CONTENT) ]

/- ===== send_mail payload construction (source lines 489-596) ===== -/

/-- One entry of toRecipients, ccRecipients or bccRecipients; it stands for the
    JSON object with emailAddress.address set to the given string. -/
structure RecipientObj where
  address : String
deriving DecidableEq

/-- The sender object: emailAddress.address plus emailAddress.name. -/
structure SenderObj where
  address : String
  name : String
deriving DecidableEq

/-- The body object of the message. -/
structure MessageBody where
  contentType : String
  content : String
deriving DecidableEq

/-- The message object of the payload. An Option field set to none means the key
    is absent from the serialized JSON; some means the key is present. -/
structure MailMessage where
  subject : String
  body : MessageBody
  toRecipients : List RecipientObj
  sender : SenderObj
  importance : String
  ccRecipients : Option (List RecipientObj) := none
  bccRecipients : Option (List RecipientObj) := none
  hasAttachments : Option Bool := none
  attachments : Option (List (List (String × String))) := none
deriving DecidableEq

/-- The full mail payload; saveToSentItems is a top-level key, present only when
    set. -/
structure MailPayload where
  message : MailMessage
  saveToSentItems : Option Bool := none
deriving DecidableEq

/-- The recipient_emails argument: a single address string or a list of them. -/
inductive RecipientInput where
  | single (email : String)
  | many (emails : List String)
deriving DecidableEq

/-- The address list underlying a RecipientInput. -/
def recipientEmailList : RecipientInput → List String
  | .single e => [e]
  | .many l => l

/-- A recipient entry for one input address. -/
def mkRecipient (email : String) : RecipientObj := ⟨email⟩

/-- The attachments argument: a single SimpleFileAttachment or a list of them.
    The runtime isinstance checks of the source (lines 569-586) have no failing
    case in this typed embedding. -/
inductive AttachmentsInput where
  | one (a : SimpleFileAttachment)
  | many (l : List SimpleFileAttachment)

/-- dict(...) applied to each provided attachment (source lines 576 and 590). -/
def attachmentDicts : AttachmentsInput → List (List (String × String))
  | .one a => [a.toDict]
  | .many l => l.map SimpleFileAttachment.toDict

/-- mail_playload["message"]["toRecipients"].append(...) for one address
    (source lines 516-526). -/
def addToRecipient (p : MailPayload) (email : String) : MailPayload :=
  { p with message :=
      { p.message with
          toRecipients := p.message.toRecipients ++ [mkRecipient email] } }

/-- mail_playload["message"]["ccRecipients"].append(...) for one address
    (source lines 536-539); the key has been set to a list just before the loop. -/
def addCcRecipient (p : MailPayload) (email : String) : MailPayload :=
  { p with message :=
      { p.message with
          ccRecipients :=
            some ((p.message.ccRecipients.getD []) ++ [mkRecipient email]) } }

/-- mail_playload["message"]["bccRecipients"].append(...) for one address
    (source lines 551-554). -/
def addBccRecipient (p : MailPayload) (email : String) : MailPayload :=
  { p with message :=
      { p.message with
          bccRecipients :=
            some ((p.message.bccRecipients.getD []) ++ [mkRecipient email]) } }

/-- Source lines 505-509: the saveToSentItems key is added only when the flag is
    true. -/
def applySaveToSent (saveToSentItems : Bool) (p : MailPayload) : MailPayload :=
  if saveToSentItems then { p with saveToSentItems := some true } else p

/-- Source lines 511-526: toRecipients gets every address of a list argument, in
    order, or the one address of a string argument. -/
def applyToRecipients (recipient_emails : RecipientInput) (p : MailPayload) :
    MailPayload :=
  match recipient_emails with
  | .many emails => emails.foldl addToRecipient p
  | .single e => addToRecipient p e

/-- Source lines 529-542: when cc_recipient_emails is not None the ccRecipients
    key is set to an empty list and then filled with one entry per address. -/
def applyCc (cc_recipient_emails : Option (List String)) (p : MailPayload) :
    MailPayload :=
  match cc_recipient_emails with
  | some ccs =>
      ccs.foldl addCcRecipient
        { p with message := { p.message with ccRecipients := some [] } }
  | none => p

/-- Source lines 544-557: when bcc_recipient_emails is not None the
    bccRecipients key is set to an empty list and then filled with one entry per
    address. -/
def applyBcc (bcc_recipient_emails : Option (List String)) (p : MailPayload) :
    MailPayload :=
  match bcc_recipient_emails with
  | some bccs =>
      bccs.foldl addBccRecipient
        { p with message := { p.message with bccRecipients := some [] } }
  | none => p

/-- Source lines 560-591: when attachments are provided the hasAttachments and
    attachments keys are added, with dict(...) applied to each attachment. -/
def applyAttachments (attachments : Option AttachmentsInput) (p : MailPayload) :
    MailPayload :=
  match attachments with
  | some a =>
      { p with message :=
          { p.message with
              hasAttachments := some true
              attachments := some (attachmentDicts a) } }
  | none => p

/-- The payload construction phase of send_mail (source lines 489-591), stage by
    stage in source order: base payload, saveToSentItems key when true,
    toRecipients from a single address or a list, ccRecipients and bccRecipients
    keys set exactly when the argument is not None, and hasAttachments plus
    attachments keys when attachments are given. -/
def buildMailPayload (source_mail_name source_mail_address : String)
    (subject : String) (recipient_emails : RecipientInput)
    (body_content : String) (body_type : String) (importance : String)
    (attachments : Option AttachmentsInput) (saveToSentItems : Bool)
    (cc_recipient_emails bcc_recipient_emails : Option (List String)) :
    MailPayload :=
  let base : MailPayload :=
    { message :=
        { subject := subject
          body := ⟨body_type, body_content⟩
          toRecipients := []
          sender := ⟨source_mail_address, source_mail_name⟩
          importance := importance } }
  applyAttachments attachments
    (applyBcc bcc_recipient_emails
      (applyCc cc_recipient_emails
        (applyToRecipients recipient_emails
          (applySaveToSent saveToSentItems base))))

/- ===== HTTP request phases of send_mail, list_message, delete_message ===== -/

/-- One GET issued by list_message: url, query parameters, headers. -/
structure ListRequest where
  url : String
  params : List (String × String)
  headers : List (String × String)
deriving DecidableEq

/-- What the server answers a list GET with: a parsed 2xx JSON page (its value
    array, modelled as opaque item strings, and the @odata.nextLink key when
    present), an HTTP error status (raise_for_status raises), or a transport
    error. -/
inductive ServerReply where
  | page (items : List String) (nextLink : Option String)
  | httpStatus (code : Nat) (text : String)
  | netError (message : String)
deriving DecidableEq

/-- The base request headers built from the stored token (source lines 703-706):
    Authorization plus Content-Type. -/
def baseHeaders (tok : TokenInfo) : List (String × String) :=
  [ ("Authorization", tok.token_type ++ " " ++ tok.access_token),
    ("Content-Type", "application/json") ]

/-- The fetch-and-paginate part of list_message (source lines 759-810). The
    Python code recursively calls the decorated list_message with only
    folder_name, user_principal_name and next_page_url; since next_page_url is
    then truthy, that call skips all parameter processing and fetches the link
    with empty params and freshly rebuilt base headers, which is what the
    recursive case here does directly. fuel bounds the recursion depth (Python
    has no such bound; the claims below never exhaust it). The except clauses
    for HTTP 400/401 and the catch-all differ only in logging and all re-raise
    the error unchanged; a 429 is NOT translated into
    MsGraphRateLimitExceededError. The second component of the result is the
    list of GET requests issued, in order. -/
def listFetch (server : ListRequest → ServerReply) (tok : TokenInfo) :
    Nat → String → List (String × String) → List (String × String) →
    Except PyExc (List String) × List ListRequest
  | fuel, url, params, headers =>
    let req : ListRequest := ⟨url, params, headers⟩
    match server req with
    | .netError m => (.error (.requestException m), [req])
    | .httpStatus c t => (.error (.httpError c (httpErrorText c t)), [req])
    | .page items none => (.ok items, [req])
    | .page items (some l) =>
        match fuel with
        | 0 => (.error (.exception "maximum recursion depth exceeded"), [req])
        | fuel' + 1 =>
            let sub := listFetch server tok fuel' l [] (baseHeaders tok)
            match sub.1 with
            | .ok addl => (.ok (items ++ addl), req :: sub.2)
            | .error e => (.error e, req :: sub.2)

/-- list_message (source lines 681-810). When next_page_url is falsy the
    mutually exclusive filter/search check runs first, then params are built in
    source order ($filter, $search, $select, $top, $count), the
    ConsistencyLevel header is added when adv_query_header or filter is truthy,
    and the folder URL is fetched; when next_page_url is truthy all of that is
    skipped and the link itself is fetched with the params dict still empty.
    Returns the aggregated messages (or the propagated exception) and the trace
    of GET requests issued. -/
def list_message (server : ListRequest → ServerReply) (tok : TokenInfo)
    (source_mail_address : String) (fuel : Nat)
    (folder_name user_principal_name : String)
    (filter search select : Option String) (page_size : Int)
    (return_count : Bool) (adv_query_header : Bool)
    (next_page_url : Option String) :
    Except PyExc (List String) × List ListRequest :=
  let headers0 := baseHeaders tok
  if !(pyTruthy next_page_url) then
    if pyTruthy filter ∧ pyTruthy search then
      (.error (.exception ("You cannot provide both a filter and search "
        ++ "parmater to MSGraph API at the same time.")), [])
    else
      let params : List (String × String) :=
        (if pyTruthy filter then [("$filter", filter.getD "")] else [])
          ++ (if pyTruthy search then [("$search", search.getD "")] else [])
          ++ (if pyTruthy select then [("$select", select.getD "")] else [])
          ++ (if pyTruthyInt page_size then [("$top", toString page_size)]
              else [])
          ++ (if return_count then [("$count", pyBoolStr return_count)]
              else [])
      let headers :=
        if adv_query_header || pyTruthy filter then
          headers0 ++ [("ConsistencyLevel", "eventual"), ("$count", "true")]
        else headers0
      let url := "https://graph.microsoft.com/v1.0/users/"
        ++ source_mail_address ++ "/mailFolders/" ++ folder_name ++ "/messages"
      listFetch server tok fuel url params headers
  else
    listFetch server tok fuel (next_page_url.getD "") [] headers0

/- ===== Helper lemmas ===== -/

/-- An always-rate-limited wrapped call: each remaining iteration sleeps the
    carried retry_after, increments the counter, and the loop ends in the
    terminal error with the default retry_after of 90. -/
theorem retryGo_const_rateLimited {α : Type} (m : Int) (msg : String) (ra : Int) :
    ∀ (fuel attempt : Nat) (sleeps : List Int),
    retryGo m (fun _ => (.error (.msGraphRateLimit msg ra) : Except PyExc α))
        fuel attempt sleeps
      = ⟨.error (.msGraphRateLimit (maxRetriesMessage (attempt + fuel) m) 90),
          sleeps ++ List.replicate fuel ra, attempt + fuel⟩ := by
  intro fuel
  induction fuel with
  | zero => intro attempt sleeps; simp [retryGo]
  | succ n ih =>
      intro attempt sleeps
      rw [retryGo]
      dsimp only
      have h1 : attempt + 1 + n = attempt + (n + 1) := by omega
      rw [ih (attempt + 1) (sleeps ++ [ra]), h1]
      simp [List.replicate_succ]

/- ===== Claim theorems ===== -/

/-- C2: with max retries = 2 and a wrapped operation that signals the rate-limit
    condition with Retry-After 3 on every attempt, the executor sleeps 3 seconds
    after the first 429, invokes the operation exactly once more (two invocations
    in total), sleeps again, and raises the terminal rate-limit-exceeded error
    whose counter, having started at 0 and been incremented after each sleep,
    reads 2 of 2. -/
theorem c2_retry_twice_then_terminal (msg : String) :
    retry_request 2 (fun _ => (.error (.msGraphRateLimit msg 3) :
        Except PyExc Unit))
      = ⟨.error (.msGraphRateLimit (maxRetriesMessage 2 2) 90), [3, 3], 2⟩ := by
  rfl

/-- C3: when every attempt signals the rate-limit condition and the configured
    maximum m is positive, the attempt counter reaches m and the executor raises
    the terminal rate-limit-exceeded error: an MsGraphRateLimitExceededError
    whose message is the dedicated max-retries text carrying the final attempt
    count and the configured maximum (distinguishing it from the per-occurrence
    error, whose message is the HTTP error text), after having slept once per
    attempt. -/
theorem c3_terminal_error_carries_counts (m : Int) (msg : String) (ra : Int)
    (h : 0 < m) :
    retry_request m (fun _ => (.error (.msGraphRateLimit msg ra) :
        Except PyExc Unit))
      = ⟨.error (.msGraphRateLimit (maxRetriesMessage m.toNat m) 90),
          List.replicate m.toNat ra, m.toNat⟩ := by
  unfold retry_request
  rw [retryGo_const_rateLimited m msg ra m.toNat 0 []]
  simp

/-- Witness for C3 at m = 3, Retry-After 7. -/
theorem c3_terminal_error_carries_counts_witness :
    (0 : Int) < 3 ∧
    retry_request 3 (fun _ => (.error (.msGraphRateLimit "throttled" 7) :
        Except PyExc Unit))
      = ⟨.error (.msGraphRateLimit (maxRetriesMessage 3 3) 90), [7, 7, 7], 3⟩ :=
  ⟨by decide,
    by
      have h := c3_terminal_error_carries_counts 3 "throttled" 7 (by decide)
      simpa using h⟩

/-- C10: when the configured maximum retry count is zero or negative, the retry
    wrapper raises the terminal rate-limit-exceeded error at once: the wrapped
    operation (freshness check and HTTP call included) is invoked zero times, no
    sleep happens, and the terminal message reports a counter of 0. -/
theorem c10_nonpositive_max_retries {α : Type} (call : Nat → Except PyExc α)
    (m : Int) (h : m ≤ 0) :
    retry_request m call
      = ⟨.error (.msGraphRateLimit (maxRetriesMessage 0 m) 90), [], 0⟩ := by
  unfold retry_request
  rw [Int.toNat_of_nonpos h]
  rfl

/-- Witness for C10 at max retries 0 with an operation that would succeed. -/
theorem c10_nonpositive_max_retries_witness :
    (0 : Int) ≤ 0 ∧
    retry_request 0 (fun _ => (.ok () : Except PyExc Unit))
      = ⟨.error (.msGraphRateLimit (maxRetriesMessage 0 0) 90), [], 0⟩ :=
  ⟨by decide,
    c10_nonpositive_max_retries (fun _ => (.ok () : Except PyExc Unit)) 0
      (by decide)⟩

/-- C5: a token acquired at time t0 with expires_in = 10 gets
    expires_at = t0 + 10; the staleness check with its 5-second buffer reports
    stale exactly when now + 5 is at least expires_at, hence stale at t0 + 6 and
    still fresh at t0 + 4; and the freshness wrapper runs the wrapped call with
    a newly acquired token exactly when the check reported stale. -/
theorem c5_token_staleness {α : Type} (t0 : Int) (a ty : String)
    (freshTok : TokenInfo) (f : TokenInfo → α) :
    (acquireToken t0 ⟨a, ty, 10⟩).expires_at = t0 + 10 ∧
    tokenIsExpiringSoon (t0 + 6) (acquireToken t0 ⟨a, ty, 10⟩).expires_at
      = true ∧
    tokenIsExpiringSoon (t0 + 4) (acquireToken t0 ⟨a, ty, 10⟩).expires_at
      = false ∧
    (∀ now e, tokenIsExpiringSoon now e = true ↔ now + 5 ≥ e) ∧
    check_token_validity (t0 + 6) (acquireToken t0 ⟨a, ty, 10⟩) freshTok f
      = f freshTok ∧
    check_token_validity (t0 + 4) (acquireToken t0 ⟨a, ty, 10⟩) freshTok f
      = f (acquireToken t0 ⟨a, ty, 10⟩) := by
  refine ⟨rfl, ?_, ?_, ?_, ?_, ?_⟩
  · simp [tokenIsExpiringSoon, acquireToken]; omega
  · simp [tokenIsExpiringSoon, acquireToken]; omega
  · intro now e; simp [tokenIsExpiringSoon]
  · simp [check_token_validity, tokenIsExpiringSoon, acquireToken]; omega
  · simp [check_token_validity, tokenIsExpiringSoon, acquireToken]; omega

/- ===== Payload construction lemmas ===== -/

/-- Appending a to-recipient leaves the cc and bcc keys unchanged. -/
theorem addToRecipient_keeps_cc_bcc (p : MailPayload) (e : String) :
    (addToRecipient p e).message.ccRecipients = p.message.ccRecipients ∧
    (addToRecipient p e).message.bccRecipients = p.message.bccRecipients :=
  ⟨rfl, rfl⟩

/-- Folding to-recipient appends accumulates one entry per address, in order. -/
theorem foldl_addToRecipient (l : List String) :
    ∀ p : MailPayload,
    (l.foldl addToRecipient p).message.toRecipients
      = p.message.toRecipients ++ l.map mkRecipient := by
  induction l with
  | nil => intro p; simp
  | cons e rest ih =>
      intro p
      simp only [List.foldl_cons, List.map_cons]
      rw [ih (addToRecipient p e)]
      simp [addToRecipient]

/-- Folding to-recipient appends does not touch the cc key. -/
theorem foldl_addToRecipient_cc (l : List String) :
    ∀ p : MailPayload,
    (l.foldl addToRecipient p).message.ccRecipients
      = p.message.ccRecipients := by
  induction l with
  | nil => intro p; simp
  | cons e rest ih => intro p; simp only [List.foldl_cons]; rw [ih]; rfl

/-- Folding to-recipient appends does not touch the bcc key. -/
theorem foldl_addToRecipient_bcc (l : List String) :
    ∀ p : MailPayload,
    (l.foldl addToRecipient p).message.bccRecipients
      = p.message.bccRecipients := by
  induction l with
  | nil => intro p; simp
  | cons e rest ih => intro p; simp only [List.foldl_cons]; rw [ih]; rfl

/-- Folding cc appends onto a payload whose cc key holds cs yields one entry per
    address appended to cs, in order. -/
theorem foldl_addCcRecipient (l : List String) :
    ∀ (p : MailPayload) (cs : List RecipientObj),
    p.message.ccRecipients = some cs →
    (l.foldl addCcRecipient p).message.ccRecipients
      = some (cs ++ l.map mkRecipient) := by
  induction l with
  | nil => intro p cs h; simpa using h
  | cons e rest ih =>
      intro p cs h
      simp only [List.foldl_cons, List.map_cons]
      rw [ih (addCcRecipient p e) (cs ++ [mkRecipient e])]
      · simp
      · simp [addCcRecipient, h]

/-- Folding cc appends does not touch the toRecipients list. -/
theorem foldl_addCcRecipient_to (l : List String) :
    ∀ p : MailPayload,
    (l.foldl addCcRecipient p).message.toRecipients
      = p.message.toRecipients := by
  induction l with
  | nil => intro p; simp
  | cons e rest ih => intro p; simp only [List.foldl_cons]; rw [ih]; rfl

/-- Folding cc appends does not touch the bcc key. -/
theorem foldl_addCcRecipient_bcc (l : List String) :
    ∀ p : MailPayload,
    (l.foldl addCcRecipient p).message.bccRecipients
      = p.message.bccRecipients := by
  induction l with
  | nil => intro p; simp
  | cons e rest ih => intro p; simp only [List.foldl_cons]; rw [ih]; rfl

/-- Folding bcc appends onto a payload whose bcc key holds cs yields one entry
    per address appended to cs, in order. -/
theorem foldl_addBccRecipient (l : List String) :
    ∀ (p : MailPayload) (cs : List RecipientObj),
    p.message.bccRecipients = some cs →
    (l.foldl addBccRecipient p).message.bccRecipients
      = some (cs ++ l.map mkRecipient) := by
  induction l with
  | nil => intro p cs h; simpa using h
  | cons e rest ih =>
      intro p cs h
      simp only [List.foldl_cons, List.map_cons]
      rw [ih (addBccRecipient p e) (cs ++ [mkRecipient e])]
      · simp
      · simp [addBccRecipient, h]

/-- Folding bcc appends does not touch the toRecipients list. -/
theorem foldl_addBccRecipient_to (l : List String) :
    ∀ p : MailPayload,
    (l.foldl addBccRecipient p).message.toRecipients
      = p.message.toRecipients := by
  induction l with
  | nil => intro p; simp
  | cons e rest ih => intro p; simp only [List.foldl_cons]; rw [ih]; rfl

/-- Folding bcc appends does not touch the cc key. -/
theorem foldl_addBccRecipient_cc (l : List String) :
    ∀ p : MailPayload,
    (l.foldl addBccRecipient p).message.ccRecipients
      = p.message.ccRecipients := by
  induction l with
  | nil => intro p; simp
  | cons e rest ih => intro p; simp only [List.foldl_cons]; rw [ih]; rfl


/-- The saveToSentItems stage leaves the message object unchanged. -/
theorem applySaveToSent_message (sv : Bool) (p : MailPayload) :
    (applySaveToSent sv p).message = p.message := by
  cases sv <;> rfl

/-- The toRecipients stage appends one entry per input address, in order. -/
theorem applyToRecipients_to (r : RecipientInput) (p : MailPayload) :
    (applyToRecipients r p).message.toRecipients
      = p.message.toRecipients ++ (recipientEmailList r).map mkRecipient := by
  cases r with
  | single e => simp [applyToRecipients, recipientEmailList, addToRecipient,
      mkRecipient]
  | many l => simp [applyToRecipients, recipientEmailList,
      foldl_addToRecipient]

/-- The toRecipients stage does not touch the cc key. -/
theorem applyToRecipients_cc (r : RecipientInput) (p : MailPayload) :
    (applyToRecipients r p).message.ccRecipients
      = p.message.ccRecipients := by
  cases r with
  | single e => rfl
  | many l => simp [applyToRecipients, foldl_addToRecipient_cc]

/-- The toRecipients stage does not touch the bcc key. -/
theorem applyToRecipients_bcc (r : RecipientInput) (p : MailPayload) :
    (applyToRecipients r p).message.bccRecipients
      = p.message.bccRecipients := by
  cases r with
  | single e => rfl
  | many l => simp [applyToRecipients, foldl_addToRecipient_bcc]

/-- The cc stage: the ccRecipients key is absent when the argument is None and
    holds exactly one entry per address (so an empty list for an empty
    argument) when it is not. -/
theorem applyCc_cc (cc : Option (List String)) (p : MailPayload) :
    (applyCc cc p).message.ccRecipients
      = match cc with
        | none => p.message.ccRecipients
        | some ccs => some (ccs.map mkRecipient) := by
  cases cc with
  | none => rfl
  | some ccs =>
      have h := foldl_addCcRecipient ccs
        { p with message := { p.message with ccRecipients := some [] } } []
        rfl
      simpa using h

/-- The cc stage does not touch the toRecipients list. -/
theorem applyCc_to (cc : Option (List String)) (p : MailPayload) :
    (applyCc cc p).message.toRecipients = p.message.toRecipients := by
  cases cc with
  | none => rfl
  | some ccs => simp [applyCc, foldl_addCcRecipient_to]

/-- The cc stage does not touch the bcc key. -/
theorem applyCc_bcc (cc : Option (List String)) (p : MailPayload) :
    (applyCc cc p).message.bccRecipients = p.message.bccRecipients := by
  cases cc with
  | none => rfl
  | some ccs => simp [applyCc, foldl_addCcRecipient_bcc]

/-- The bcc stage: the bccRecipients key is absent when the argument is None and
    holds exactly one entry per address when it is not. -/
theorem applyBcc_bcc (bcc : Option (List String)) (p : MailPayload) :
    (applyBcc bcc p).message.bccRecipients
      = match bcc with
        | none => p.message.bccRecipients
        | some bccs => some (bccs.map mkRecipient) := by
  cases bcc with
  | none => rfl
  | some bccs =>
      have h := foldl_addBccRecipient bccs
        { p with message := { p.message with bccRecipients := some [] } } []
        rfl
      simpa using h

/-- The bcc stage does not touch the toRecipients list. -/
theorem applyBcc_to (bcc : Option (List String)) (p : MailPayload) :
    (applyBcc bcc p).message.toRecipients = p.message.toRecipients := by
  cases bcc with
  | none => rfl
  | some bccs => simp [applyBcc, foldl_addBccRecipient_to]

/-- The bcc stage does not touch the cc key. -/
theorem applyBcc_cc (bcc : Option (List String)) (p : MailPayload) :
    (applyBcc bcc p).message.ccRecipients = p.message.ccRecipients := by
  cases bcc with
  | none => rfl
  | some bccs => simp [applyBcc, foldl_addBccRecipient_cc]

/-- The attachments stage touches neither the recipients nor the cc/bcc keys. -/
theorem applyAttachments_keeps (att : Option AttachmentsInput)
    (p : MailPayload) :
    (applyAttachments att p).message.toRecipients = p.message.toRecipients ∧
    (applyAttachments att p).message.ccRecipients = p.message.ccRecipients ∧
    (applyAttachments att p).message.bccRecipients
      = p.message.bccRecipients := by
  cases att <;> exact ⟨rfl, rfl, rfl⟩

/-- C7: for every recipient input to send, whether a single address string or a
    list of address strings, the serialized toRecipients list contains exactly
    one address object per input address, in the same order as the input. -/
theorem c7_to_recipients_one_entry_per_address
    (sn sa subj bc bt imp : String) (r : RecipientInput)
    (att : Option AttachmentsInput) (sv : Bool)
    (cc bcc : Option (List String)) :
    (buildMailPayload sn sa subj r bc bt imp att sv cc
        bcc).message.toRecipients
      = (recipientEmailList r).map mkRecipient := by
  unfold buildMailPayload
  rw [(applyAttachments_keeps att _).1, applyBcc_to, applyCc_to,
    applyToRecipients_to, applySaveToSent_message]
  simp

/-- C6: in the serialized send payload the ccRecipients and bccRecipients keys
    are present exactly when the corresponding argument is non-null — each then
    holding one entry per address, so an empty-list argument yields the key with
    an empty list value — and absent when the argument is null. -/
theorem c6_cc_bcc_key_presence
    (sn sa subj bc bt imp : String) (r : RecipientInput)
    (att : Option AttachmentsInput) (sv : Bool)
    (cc bcc : Option (List String)) :
    (buildMailPayload sn sa subj r bc bt imp att sv cc
        bcc).message.ccRecipients
      = Option.map (List.map mkRecipient) cc ∧
    (buildMailPayload sn sa subj r bc bt imp att sv cc
        bcc).message.bccRecipients
      = Option.map (List.map mkRecipient) bcc ∧
    ((buildMailPayload sn sa subj r bc bt imp att sv cc
        bcc).message.ccRecipients).isSome = cc.isSome ∧
    ((buildMailPayload sn sa subj r bc bt imp att sv cc
        bcc).message.bccRecipients).isSome = bcc.isSome ∧
    (buildMailPayload sn sa subj r bc bt imp att sv (some [])
        bcc).message.ccRecipients = some [] ∧
    (buildMailPayload sn sa subj r bc bt imp att sv cc
        (some [])).message.bccRecipients = some [] := by
  have hcc : ∀ cc1 bcc1,
      (buildMailPayload sn sa subj r bc bt imp att sv cc1
          bcc1).message.ccRecipients
        = Option.map (List.map mkRecipient) cc1 := by
    intro cc1 bcc1
    unfold buildMailPayload
    rw [(applyAttachments_keeps att _).2.1, applyBcc_cc, applyCc_cc]
    cases cc1 with
    | none =>
        rw [applyToRecipients_cc, applySaveToSent_message]
        rfl
    | some ccs => rfl
  have hbcc : ∀ cc1 bcc1,
      (buildMailPayload sn sa subj r bc bt imp att sv cc1
          bcc1).message.bccRecipients
        = Option.map (List.map mkRecipient) bcc1 := by
    intro cc1 bcc1
    unfold buildMailPayload
    rw [(applyAttachments_keeps att _).2.2, applyBcc_bcc]
    cases bcc1 with
    | none =>
        rw [applyCc_bcc, applyToRecipients_bcc, applySaveToSent_message]
        rfl
    | some bccs => rfl
  refine ⟨hcc cc bcc, hbcc cc bcc, ?_, ?_, ?_, ?_⟩
  · rw [hcc cc bcc]; cases cc <;> rfl
  · rw [hbcc cc bcc]; cases bcc <;> rfl
  · rw [hcc (some []) bcc]; rfl
  · rw [hbcc cc (some [])]; rfl

/- ===== Pagination and list_message claims ===== -/

/-- A concrete token for the pagination scenarios. -/
def tok0 : TokenInfo := ⟨"abc123", "Bearer", 1000⟩

/-- A mock server serving three chained pages of 2, 2 and 1 items: the folder
    URL answers with m1, m2 and a nextLink to page2; page2 answers with m3, m4
    and a nextLink to page3; page3 answers with m5 and no nextLink. -/
def threePageServer : ListRequest → ServerReply := fun req =>
  if req.url = "https://graph.microsoft.com/page2" then
    .page ["m3", "m4"] (some "https://graph.microsoft.com/page3")
  else if req.url = "https://graph.microsoft.com/page3" then
    .page ["m5"] none
  else
    .page ["m1", "m2"] (some "https://graph.microsoft.com/page2")

/-- C4: against the three-page server, list_message returns exactly the 5 items
    in the original server order; the first GET goes to the folder URL with the
    caller's $select/$top/$count parameters, and each continuation GET uses the
    nextLink verbatim with an empty parameter set — the original
    filter/search/select/page-size parameters are dropped on continuation
    calls. -/
theorem c4_pagination_three_pages :
    list_message threePageServer tok0 "sender@x.com" 10 "inbox" "user@x.com"
        none none (some "subject") 5 true false none
      = (.ok ["m1", "m2", "m3", "m4", "m5"],
          [ ⟨"https://graph.microsoft.com/v1.0/users/sender@x.com/mailFolders/inbox/messages",
              [("$select", "subject"), ("$top", "5"), ("$count", "true")],
              baseHeaders tok0⟩,
            ⟨"https://graph.microsoft.com/page2", [], baseHeaders tok0⟩,
            ⟨"https://graph.microsoft.com/page3", [], baseHeaders tok0⟩ ]) := by
  rfl

/-- C8 counterexample: a call to list_message that supplies both a filter and a
    search parameter together with a continuation link raises no error at all —
    it issues a GET to the link (one network request, empty params) and returns
    that page, contradicting the claim that every call supplying both
    parameters fails before any network request. -/
theorem c8_counterexample :
    list_message (fun _ => .page ["x"] none) tok0 "sender@x.com" 5 "inbox"
        "user@x.com" (some "isRead eq true") (some "pizza") none 10 true false
        (some "https://graph.microsoft.com/nextpage")
      = (.ok ["x"],
          [⟨"https://graph.microsoft.com/nextpage", [], baseHeaders tok0⟩]) := by
  rfl

/-- C8 amended: for every call to the list operation that supplies both a
    non-empty filter and a non-empty search parameter and does not supply a
    continuation link, the fatal usage error is raised before any network
    request is made (the request trace is empty); when a continuation link is
    supplied the filter/search check is skipped. -/
theorem c8_amended_filter_search_guard
    (server : ListRequest → ServerReply) (tok : TokenInfo)
    (sma : String) (fuel : Nat) (folder user : String)
    (filter search select : Option String) (ps : Int) (rc aqh : Bool)
    (npu : Option String)
    (hf : pyTruthy filter = true) (hs : pyTruthy search = true)
    (hn : pyTruthy npu = false) :
    list_message server tok sma fuel folder user filter search select ps rc aqh
        npu
      = (.error (.exception ("You cannot provide both a filter and search "
          ++ "parmater to MSGraph API at the same time.")), []) := by
  unfold list_message
  simp [hf, hs, hn]

/-- Witness for C8 amended: filter and search both non-empty, no continuation
    link. -/
theorem c8_amended_filter_search_guard_witness :
    pyTruthy (some "isRead eq true") = true ∧
    pyTruthy (some "pizza") = true ∧
    pyTruthy none = false ∧
    list_message (fun _ => .page ["x"] none) tok0 "sender@x.com" 5 "inbox"
        "user@x.com" (some "isRead eq true") (some "pizza") none 10 true false
        none
      = (.error (.exception ("You cannot provide both a filter and search "
          ++ "parmater to MSGraph API at the same time.")), []) :=
  ⟨by decide, by decide, rfl,
    c8_amended_filter_search_guard (fun _ => .page ["x"] none) tok0
      "sender@x.com" 5 "inbox" "user@x.com" (some "isRead eq true")
      (some "pizza") none 10 true false none (by decide) (by decide) rfl⟩

/- ===== Attachment construction claims ===== -/

/-- Transcribed from the claim wording (refinement comparison definition, not
    from the source): the source is malformed when both a path and a byte
    buffer are supplied, neither is supplied, bytes are supplied without a
    filename, bytes are supplied without a content-type, or a path is supplied
    whose content-type cannot be guessed when none is given. -/
def claimMalformedSource (filepath filename : Option String)
    (filebytes : Option (List Nat)) (content_type : Option String)
    (guessType : String → Option String) : Bool :=
  (filepath.isSome && filebytes.isSome)
    || (filepath.isNone && filebytes.isNone)
    || (filebytes.isSome && filename.isNone)
    || (filebytes.isSome && content_type.isNone)
    || (match filepath with
        | some p => content_type.isNone && (guessType p).isNone
        | none => false)

/-- C9 counterexample: constructing an attachment from a path with an explicit
    content-type, over a file system where the file is missing, raises a fatal
    error (FileNotFoundError) even though none of the malformedness conditions
    enumerated by the claim holds — so construction does not fail *exactly*
    when the source is malformed in the claimed sense. -/
theorem c9_counterexample :
    SimpleFileAttachment.init (fun _ => some "text/plain") (fun _ => none)
        (some "notes.txt") none none (some "text/plain")
      = .error (.fileNotFound ("SimpleFileAttachment could not "
          ++ "locate the file at the provided path: " ++ "notes.txt")) ∧
    claimMalformedSource (some "notes.txt") none none (some "text/plain")
        (fun _ => some "text/plain") = false := by
  exact ⟨rfl, rfl⟩

/-- C9 amended: construction raises a fatal error exactly when the source is
    malformed in the claimed sense or a supplied path cannot be read; and with
    bytes, filename and content-type all supplied, construction succeeds and
    the serialized contentBytes is exactly base64 of the supplied bytes. -/
theorem c9_amended_construction_errors
    (guessType : String → Option String)
    (readFile : String → Option (List Nat))
    (filepath filename : Option String) (filebytes : Option (List Nat))
    (content_type : Option String) :
    ((∃ e, SimpleFileAttachment.init guessType readFile filepath filename
          filebytes content_type = .error e)
      ↔ (claimMalformedSource filepath filename filebytes content_type
            guessType = true
          ∨ (∃ p, filepath = some p ∧ filebytes = none ∧ readFile p = none))) ∧
    (∀ (bs : List Nat) (f c : String),
      SimpleFileAttachment.init guessType readFile none (some f) (some bs)
          (some c) = .ok ⟨none, f, c, bs, b64encode bs⟩) ∧
    (∀ (bs : List Nat) (f c : String),
      SimpleFileAttachment.toDict ⟨none, f, c, bs, b64encode bs⟩
        = [ ("@odata.type", "#microsoft.graph.fileAttachment"), ("name", f),
            ("contentType", c), ("contentBytes", b64encode bs) ]) := by
  refine ⟨?_, fun bs f c => rfl, fun bs f c => rfl⟩
  rcases filepath with _ | p <;> rcases filebytes with _ | bs <;>
    rcases filename with _ | f <;> rcases content_type with _ | c <;>
    simp [SimpleFileAttachment.init, claimMalformedSource] <;>
    (try cases hg : guessType p) <;> (try cases hr : readFile p) <;>
    simp_all

/- ===== 429 policy claims ===== -/

